import Mathlib

/-!
# ESP8266 JSON WebSocket server: the event handler of `src/main.cpp`

A shallow embedding of `onWsEvent` and of the helpers it calls (`applyLed`,
`oledShowState`, `sendJsonTo`, `broadcastJson`), followed by theorems about the
command to effect mapping, the connection lifecycle messages and the evolution
of `led_state` over sequences of events.

The handler talks to four library objects whose code is not part of the
repository: the JSON library, the WebSocket server `ws`, the serial port and
the display. Calls into them are recorded, in program order, in a trace.
-/

namespace Esp8266Ws

/-! ## JSON documents -/

/-- A JSON document as held by a `JsonDocument` after parsing or after member
assignments. A string value holds every character of the parsed string, a NUL
written as the escape `\u0000` included. Numbers are never inspected by the
handler; a float is kept as a decimal mantissa and exponent. -/
inductive Json where
  | null
  | bool (b : Bool)
  | int (n : Int)
  | float (mantissa exponent : Int)
  | str (s : String)
  | arr (items : List Json)
  | obj (members : List (String × Json))

/-- The first member of a member list stored under `key`. -/
def lookupMember (key : String) : List (String × Json) → Option Json
  | [] => none
  | (k, v) :: rest => if k = key then some v else lookupMember key rest

/-- The variant `doc[key]`: the member stored under `key` when the document is
an object holding one, and the unbound variant (`none`) otherwise. -/
def getMember (doc : Json) (key : String) : Option Json :=
  match doc with
  | .obj members => lookupMember key members
  | _ => none

/-- The test `v.is<bool>()`: true exactly on a JSON boolean. -/
def isBool : Option Json → Bool
  | some (.bool _) => true
  | _ => false

/-- The conversion `v.as<bool>()`: the boolean itself, a number is compared
with zero, null and unbound give false, every other variant gives true. The
handler calls it only under `is<bool>()`. -/
def asBool : Option Json → Bool
  | some (.bool b) => b
  | some (.int n) => n != 0
  | some (.float m _) => m != 0
  | some .null => false
  | none => false
  | some _ => true

/-- The NUL character, the terminator of a C string. -/
def nul : Char := Char.ofNat 0

/-- What a read through `const char*` sees of a stored string: the characters
before its first NUL. This is what `strcmp`, the `String(const char*)`
constructor and the assignment of a `const char*` to a member work on. -/
def cstr (s : String) : String :=
  ⟨s.data.takeWhile fun c => c != nul⟩

/-- The expression `v | dflt` at type `const char*`: a pointer to the string
held by the variant when it holds one, read as a C string, and the default
otherwise. -/
def orDefault (v : Option Json) (dflt : String) : String :=
  match v with
  | some (.str s) => cstr s
  | _ => dflt

/-- The Arduino `String::equalsIgnoreCase`: equal lengths and equal characters
after `tolower`, which maps the letters A to Z only. -/
def equalsIgnoreCase (s t : String) : Bool :=
  s.length == t.length &&
    (s.data.zip t.data).all (fun p => p.1.toLower == p.2.toLower)

/-! ## The trace of library calls -/

/-- Output level of a GPIO pin. -/
inductive PinLevel where
  | LOW
  | HIGH
  deriving DecidableEq, Repr

/-- The pin of the built-in LED (`LED_BUILTIN`, GPIO2 on the usual ESP8266
boards); the LED is active low. -/
def LED_PIN : Nat := 2

/-- One call into a library object made by the handler. `sendTXT` and
`broadcastTXT` carry the document whose serialisation is the frame text. -/
inductive Effect where
  | serialPrintf (fmt : String) (id : Nat)
  | digitalWrite (pin : Nat) (level : PinLevel)
  | oledShowState (led : Bool)
  | sendTXT (id : Nat) (doc : Json)
  | broadcastTXT (doc : Json)

/-- A trace entry: the call, stamped with the value `led_state` had at the
instant the call was made. -/
structure Emission where
  effect : Effect
  ledAt : Bool

/-- The globals of the sketch read or written by the handler (`led_state`),
together with the trace of calls made so far. -/
structure Machine where
  led_state : Bool
  trace : List Emission

/-- Record a library call in the trace, stamped with the current `led_state`. -/
def emit (e : Effect) (m : Machine) : Machine :=
  { m with trace := m.trace ++ [⟨e, m.led_state⟩] }

/-- The state after the declarations of `main.cpp`: `led_state = false` and
nothing emitted. -/
def boot : Machine := ⟨false, []⟩

/-! ## Helpers of `main.cpp` -/

/-- The function `oledShowState`: redraws the display, printing ON or OFF
according to `led_state`. -/
def oledShowState (m : Machine) : Machine :=
  emit (.oledShowState m.led_state) m

/-- The function `applyLed`: drive the pin (LOW is on), store the logical state,
refresh the display. -/
def applyLed (value : Bool) (m : Machine) : Machine :=
  let m := emit (.digitalWrite LED_PIN (if value then .LOW else .HIGH)) m
  let m := { m with led_state := value }
  oledShowState m

/-- The function `sendJsonTo`: serialise and send to one client. -/
def sendJsonTo (id : Nat) (doc : Json) (m : Machine) : Machine :=
  emit (.sendTXT id doc) m

/-- The function `broadcastJson`: serialise and hand to `ws.broadcastTXT`. -/
def broadcastJson (doc : Json) (m : Machine) : Machine :=
  emit (.broadcastTXT doc) m

/-! ## Outbound documents built by the handler -/

/-- The document `hello`: event hello, who, msg welcome. -/
def helloDoc (id : Nat) : Json :=
  .obj [("event", .str "hello"), ("who", .int id), ("msg", .str "welcome")]

/-- The documents `snap` and `push`: event led with a boolean value. -/
def ledDoc (value : Bool) : Json :=
  .obj [("event", .str "led"), ("value", .bool value)]

/-- The documents `joined` and `left`: event presence with a type and who. -/
def presenceDoc (type : String) (id : Nat) : Json :=
  .obj [("event", .str "presence"), ("type", .str type), ("who", .int id)]

/-- The document `echo`: event echo with the message. -/
def echoDoc (msg : String) : Json :=
  .obj [("event", .str "echo"), ("msg", .str msg)]

/-! ## The event handler -/

/-- The event types of the WebSocket library (`WStype_t`). -/
inductive WStype where
  | ERROR
  | DISCONNECTED
  | CONNECTED
  | TEXT
  | BIN
  | FRAGMENT_TEXT_START
  | FRAGMENT_BIN_START
  | FRAGMENT
  | FRAGMENT_FIN
  | PING
  | PONG
  deriving DecidableEq, Repr

/-- The error codes of `deserializeJson`. -/
inductive DeserializationError where
  | EmptyInput
  | IncompleteInput
  | InvalidInput
  | NoMemory
  | TooDeep
  deriving DecidableEq, Repr

/-- The bytes of a frame, as text. -/
abbrev Payload := String

/-- The JSON parser of the library, a parameter of the handler: a document, or
an error code. -/
abbrev Deserializer := Payload → Except DeserializationError Json

/-- The value `wantOn` computed in the led branch of `onWsEvent`: the boolean
when `state` is one, else whether the string `state | "off"` equals on ignoring
case. -/
def wantOn (doc : Json) : Bool :=
  if isBool (getMember doc "state") then
    asBool (getMember doc "state")
  else
    equalsIgnoreCase (orDefault (getMember doc "state") "off") "on"

/-- The handler `onWsEvent(id, type, payload, len)`. -/
def onWsEvent (deserializeJson : Deserializer) (id : Nat) (type : WStype)
    (payload : Payload) (m : Machine) : Machine :=
  match type with
  | .CONNECTED =>
    let m := emit (.serialPrintf "Client %u connected: %s\n" id) m
    let m := sendJsonTo id (helloDoc id) m
    let m := sendJsonTo id (ledDoc m.led_state) m
    broadcastJson (presenceDoc "join" id) m
  | .TEXT =>
    match deserializeJson payload with
    | .error _ => m
    | .ok doc =>
      let cmd := orDefault (getMember doc "cmd") ""
      if cmd = "led" then
        let m := applyLed (wantOn doc) m
        broadcastJson (ledDoc m.led_state) m
      else if cmd = "echo" then
        sendJsonTo id (echoDoc (orDefault (getMember doc "msg") "")) m
      else
        m
  | .DISCONNECTED =>
    let m := emit (.serialPrintf "Client %u disconnected\n" id) m
    broadcastJson (presenceDoc "leave" id) m
  | _ => m

/-- One event delivered by the transport to the handler. -/
structure WsEvent where
  id : Nat
  type : WStype
  payload : Payload

/-- Process one event. -/
def step (deserializeJson : Deserializer) (m : Machine) (ev : WsEvent) : Machine :=
  onWsEvent deserializeJson ev.id ev.type ev.payload m

/-- Process a finite sequence of events, in arrival order, each to completion
before the next. -/
def run (deserializeJson : Deserializer) (m : Machine) (evs : List WsEvent) : Machine :=
  evs.foldl (step deserializeJson) m

/-! ## Observations on traces -/

/-- The calls made by one invocation of the handler started in `m`: the entries
it appended to the trace. -/
def emitted (deserializeJson : Deserializer) (id : Nat) (type : WStype)
    (payload : Payload) (m : Machine) : List Effect :=
  ((onWsEvent deserializeJson id type payload m).trace.drop m.trace.length).map
    Emission.effect

/-- Whether a call puts a frame on the wire: `sendTXT` and `broadcastTXT` are
the only ones that do. -/
def isOutbound : Effect → Bool
  | .sendTXT _ _ => true
  | .broadcastTXT _ => true
  | _ => false

/-- The outbound messages among a list of calls, in order. -/
def outbound (es : List Effect) : List Effect := es.filter isOutbound

/-- Whether a call touches the actuator pin or the display. -/
def isHardware : Effect → Bool
  | .digitalWrite _ _ => true
  | .oledShowState _ => true
  | _ => false

/-- Whether a trace entry is an outbound led event carrying the value `x`,
sent to one client or broadcast. -/
def carriesLed (x : Bool) (e : Emission) : Prop :=
  e.effect = .broadcastTXT (ledDoc x) ∨ ∃ id, e.effect = .sendTXT id (ledDoc x)

/-- The number of actuator writes in a trace. -/
def writes (t : List Emission) : Nat :=
  (t.filter fun e => match e.effect with
    | .digitalWrite _ _ => true
    | _ => false).length

/-- The led command carried by an event, with the value it requests: a text
frame that parses to a document whose `cmd` is a string that reads led as a C
string. -/
def ledRequest (deserializeJson : Deserializer) (ev : WsEvent) : Option Bool :=
  match ev.type with
  | .TEXT =>
    match deserializeJson ev.payload with
    | .ok doc =>
      match getMember doc "cmd" with
      | some (.str s) => if cstr s = "led" then some (wantOn doc) else none
      | _ => none
    | .error _ => none
  | _ => none

/-! ## The registry of the transport -/

/-- Modelled from the spec: the Connection Registry (sections 4.2 and 4.6), the
set of connected session ids. It lives inside the WebSocket server object `ws`,
whose code is not in the repository. -/
abbrev Registry := List Nat

/-- Modelled from the spec: `register(id)` of section 4.2, a no-op when the id
is already present. -/
def register (id : Nat) (r : Registry) : Registry :=
  if id ∈ r then r else r ++ [id]

/-- Modelled from the spec: `unregister(id)` of section 4.2, a no-op when the
id is absent. -/
def unregister (id : Nat) (r : Registry) : Registry :=
  r.filter fun x => x != id

/-- Modelled from the spec: step 1 of section 4.6. The transport registers a
session before it reports the connect event and unregisters it before it
reports the disconnect event; the result is the registry the handler runs
against. -/
def registryAt (type : WStype) (id : Nat) (r : Registry) : Registry :=
  match type with
  | .CONNECTED => register id r
  | .DISCONNECTED => unregister id r
  | _ => r

/-- Modelled from the spec: the Broadcaster of section 4.4. `sendTXT` reaches
the addressed session when it is registered and is dropped otherwise;
`broadcastTXT` reaches every session registered at call time. -/
def deliver (r : Registry) : Effect → List (Nat × Json)
  | .sendTXT id doc => if id ∈ r then [(id, doc)] else []
  | .broadcastTXT doc => r.map fun x => (x, doc)
  | _ => []

/-- The frames delivered by a list of calls made against the registry `r`, as
pairs of receiving session and document, in order. -/
def delivered (r : Registry) : List Effect → List (Nat × Json)
  | [] => []
  | e :: es => deliver r e ++ delivered r es

/-! ## A sample parser for concrete runs -/

/-- The frame text `{"cmd":"led","state":"on"}`. -/
def ledOnFrame : Payload := "\x7b\"cmd\":\"led\",\"state\":\"on\"\x7d"

/-- The frame text `{"cmd":"led","state":false}`. -/
def ledFalseFrame : Payload := "\x7b\"cmd\":\"led\",\"state\":false\x7d"

/-- The frame text `{"cmd":"echo","msg":"hi"}`. -/
def echoHiFrame : Payload := "\x7b\"cmd\":\"echo\",\"msg\":\"hi\"\x7d"

/-- The frame text `{"cmd":"LED","state":true}`. -/
def upperLedFrame : Payload := "\x7b\"cmd\":\"LED\",\"state\":true\x7d"

/-- The frame text `{"cmd":"led","state":"on\u0000x"}`. -/
def nulStateFrame : Payload := "\x7b\"cmd\":\"led\",\"state\":\"on\\u0000x\"\x7d"

/-- The frame text `{"cmd":"led\u0000x"}`. -/
def nulCmdFrame : Payload := "\x7b\"cmd\":\"led\\u0000x\"\x7d"

/-- The frame text `{"cmd":"echo","msg":"a\u0000b"}`. -/
def nulMsgFrame : Payload := "\x7b\"cmd\":\"echo\",\"msg\":\"a\\u0000b\"\x7d"

/-- The four characters o, n, NUL, x. -/
def onNulX : String := ⟨['o', 'n', nul, 'x']⟩

/-- The five characters l, e, d, NUL, x. -/
def ledNulX : String := ⟨['l', 'e', 'd', nul, 'x']⟩

/-- The three characters a, NUL, b. -/
def aNulB : String := ⟨['a', nul, 'b']⟩

/-- The document the library parses `nulStateFrame` to: the escape is decoded to
a NUL kept inside the string value. -/
def nulStateDoc : Json := .obj [("cmd", .str "led"), ("state", .str onNulX)]

/-- The document the library parses `nulCmdFrame` to. -/
def nulCmdDoc : Json := .obj [("cmd", .str ledNulX)]

/-- The document the library parses `nulMsgFrame` to. -/
def nulMsgDoc : Json := .obj [("cmd", .str "echo"), ("msg", .str aNulB)]

/-- The document the library parses `ledOnFrame` to. -/
def ledOnDoc : Json := .obj [("cmd", .str "led"), ("state", .str "on")]

/-- The document the library parses `ledFalseFrame` to. -/
def ledFalseDoc : Json := .obj [("cmd", .str "led"), ("state", .bool false)]

/-- The document the library parses `echoHiFrame` to. -/
def echoHiDoc : Json := .obj [("cmd", .str "echo"), ("msg", .str "hi")]

/-- The document the library parses `upperLedFrame` to. -/
def upperLedDoc : Json := .obj [("cmd", .str "LED"), ("state", .bool true)]

/-- A parser defined on a few frames of the protocol, used to run the handler
on concrete inputs. The escape `\u0000` inside a string is decoded to a NUL that
stays in the string value. Every other text, `not-json` included, is rejected. -/
def sampleDeserialize : Deserializer := fun payload =>
  if payload = ledOnFrame then .ok ledOnDoc
  else if payload = ledFalseFrame then .ok ledFalseDoc
  else if payload = echoHiFrame then .ok echoHiDoc
  else if payload = upperLedFrame then .ok upperLedDoc
  else if payload = nulStateFrame then .ok nulStateDoc
  else if payload = nulCmdFrame then .ok nulCmdDoc
  else if payload = nulMsgFrame then .ok nulMsgDoc
  else .error .InvalidInput

/-- A sample run: session 1 connects, then sends the led on frame. -/
def sampleEvents : List WsEvent :=
  [⟨1, .CONNECTED, ""⟩, ⟨1, .TEXT, ledOnFrame⟩]


/-! ## Basic facts -/

theorem drop_own_length_append {α : Type} (xs ys : List α) :
    (xs ++ ys).drop xs.length = ys := by
  induction xs with
  | nil => rfl
  | cons x xs ih => simp [ih]

theorem emitted_of_trace (deserializeJson : Deserializer) (id : Nat) (type : WStype)
    (payload : Payload) (m : Machine) (xs : List Emission)
    (h : (onWsEvent deserializeJson id type payload m).trace = m.trace ++ xs) :
    emitted deserializeJson id type payload m = xs.map Emission.effect := by
  simp [emitted, h, drop_own_length_append]

/-- A string without a NUL is read whole. -/
theorem cstr_of_no_nul (s : String) (h : nul ∉ s.data) : cstr s = s := by
  obtain ⟨l⟩ := s
  simp only [cstr]
  congr 1
  rw [List.takeWhile_eq_self_iff]
  intro c hc
  simp only [bne_iff_ne, ne_eq]
  intro hcn
  exact h (hcn ▸ hc)

theorem orDefault_eq_led (v : Option Json) :
    orDefault v "" = "led" ↔ ∃ s, v = some (.str s) ∧ cstr s = "led" := by
  unfold orDefault
  split
  · rename_i s
    constructor
    · intro h; exact ⟨s, rfl, h⟩
    · rintro ⟨t, ht, hc⟩
      injection ht with ht
      injection ht with ht
      rw [ht]; exact hc
  · rename_i h
    constructor
    · intro h2; exact absurd h2 (by decide)
    · rintro ⟨t, ht, _⟩; exact absurd ht (h t)

theorem orDefault_eq_echo (v : Option Json) :
    orDefault v "" = "echo" ↔ ∃ s, v = some (.str s) ∧ cstr s = "echo" := by
  unfold orDefault
  split
  · rename_i s
    constructor
    · intro h; exact ⟨s, rfl, h⟩
    · rintro ⟨t, ht, hc⟩
      injection ht with ht
      injection ht with ht
      rw [ht]; exact hc
  · rename_i h
    constructor
    · intro h2; exact absurd h2 (by decide)
    · rintro ⟨t, ht, _⟩; exact absurd ht (h t)

/-! ### The handler, branch by branch -/

theorem onWsEvent_led (deserializeJson : Deserializer) (id : Nat) (payload : Payload)
    (doc : Json) (m : Machine) (hp : deserializeJson payload = .ok doc)
    (hc : orDefault (getMember doc "cmd") "" = "led") :
    onWsEvent deserializeJson id .TEXT payload m =
      ⟨wantOn doc, m.trace ++
        [⟨.digitalWrite LED_PIN (if wantOn doc then .LOW else .HIGH), m.led_state⟩,
         ⟨.oledShowState (wantOn doc), wantOn doc⟩,
         ⟨.broadcastTXT (.obj [("event", .str "led"), ("value", .bool (wantOn doc))]),
           wantOn doc⟩]⟩ := by
  simp [onWsEvent, hp, hc, applyLed, oledShowState, broadcastJson, emit, ledDoc]

theorem onWsEvent_echo (deserializeJson : Deserializer) (id : Nat) (payload : Payload)
    (doc : Json) (m : Machine) (hp : deserializeJson payload = .ok doc)
    (hc : orDefault (getMember doc "cmd") "" = "echo") :
    onWsEvent deserializeJson id .TEXT payload m =
      ⟨m.led_state, m.trace ++
        [⟨.sendTXT id (.obj [("event", .str "echo"),
            ("msg", .str (orDefault (getMember doc "msg") ""))]), m.led_state⟩]⟩ := by
  have h2 : ¬ ("echo" = "led") := by decide
  simp [onWsEvent, hp, hc, h2, sendJsonTo, emit, echoDoc]

theorem onWsEvent_unknown (deserializeJson : Deserializer) (id : Nat) (payload : Payload)
    (doc : Json) (m : Machine) (hp : deserializeJson payload = .ok doc)
    (h1 : orDefault (getMember doc "cmd") "" ≠ "led")
    (h2 : orDefault (getMember doc "cmd") "" ≠ "echo") :
    onWsEvent deserializeJson id .TEXT payload m = m := by
  simp [onWsEvent, hp, h1, h2]

theorem onWsEvent_error (deserializeJson : Deserializer) (id : Nat) (payload : Payload)
    (err : DeserializationError) (m : Machine) (hp : deserializeJson payload = .error err) :
    onWsEvent deserializeJson id .TEXT payload m = m := by
  simp [onWsEvent, hp]

theorem onWsEvent_connected (deserializeJson : Deserializer) (id : Nat) (payload : Payload)
    (m : Machine) :
    onWsEvent deserializeJson id .CONNECTED payload m =
      ⟨m.led_state, m.trace ++
        [⟨.serialPrintf "Client %u connected: %s\n" id, m.led_state⟩,
         ⟨.sendTXT id (.obj [("event", .str "hello"), ("who", .int id),
            ("msg", .str "welcome")]), m.led_state⟩,
         ⟨.sendTXT id (.obj [("event", .str "led"), ("value", .bool m.led_state)]),
            m.led_state⟩,
         ⟨.broadcastTXT (.obj [("event", .str "presence"), ("type", .str "join"),
            ("who", .int id)]), m.led_state⟩]⟩ := by
  simp [onWsEvent, sendJsonTo, broadcastJson, emit, helloDoc, ledDoc, presenceDoc]

theorem onWsEvent_disconnected (deserializeJson : Deserializer) (id : Nat) (payload : Payload)
    (m : Machine) :
    onWsEvent deserializeJson id .DISCONNECTED payload m =
      ⟨m.led_state, m.trace ++
        [⟨.serialPrintf "Client %u disconnected\n" id, m.led_state⟩,
         ⟨.broadcastTXT (.obj [("event", .str "presence"), ("type", .str "leave"),
            ("who", .int id)]), m.led_state⟩]⟩ := by
  simp [onWsEvent, broadcastJson, emit, presenceDoc]

theorem onWsEvent_other (deserializeJson : Deserializer) (id : Nat) (type : WStype)
    (payload : Payload) (m : Machine) (h1 : type ≠ .CONNECTED) (h2 : type ≠ .TEXT)
    (h3 : type ≠ .DISCONNECTED) :
    onWsEvent deserializeJson id type payload m = m := by
  cases type <;> simp_all [onWsEvent]

/-! ### Comparison ignoring case -/

theorem ofNat_shift_eq (t : Char) (n : Nat) (h1 : 65 ≤ n) (h2 : n ≤ 90)
    (h : Char.ofNat (n + 32) = t) : Char.ofNat n = Char.ofNat (t.toNat - 32) := by
  subst h
  interval_cases n <;> rfl

theorem toLower_cases (c t : Char) (h : c.toLower = t) :
    c = t ∨ c = Char.ofNat (t.toNat - 32) := by
  by_cases hr : c.toNat ≥ 65 ∧ c.toNat ≤ 90
  · right
    have h3 : c.toLower = Char.ofNat (c.toNat + 32) := by simp [Char.toLower, hr]
    rw [h3] at h
    have h4 := ofNat_shift_eq t c.toNat hr.1 hr.2 h
    rwa [Char.ofNat_toNat] at h4
  · left
    have h3 : c.toLower = c := by simp only [Char.toLower]; rw [if_neg hr]
    rw [← h3, h]

theorem equalsIgnoreCase_on (st : String) :
    equalsIgnoreCase st "on" = true ↔ st ∈ ["on", "On", "oN", "ON"] := by
  constructor
  · intro h
    obtain ⟨l⟩ := st
    simp only [equalsIgnoreCase, Bool.and_eq_true, beq_iff_eq, String.length] at h
    obtain ⟨hl, hz⟩ := h
    match l, hl with
    | [a, b], _ =>
      simp at hz
      obtain ⟨ha, hb⟩ := hz
      have ha2 := toLower_cases a _ ha
      have hb2 := toLower_cases b _ hb
      rcases ha2 with rfl | rfl <;> rcases hb2 with rfl | rfl <;> decide
  · intro h
    simp only [List.mem_cons, List.mem_singleton, List.not_mem_nil, or_false] at h
    rcases h with rfl | rfl | rfl | rfl <;> rfl

/-! ### Deliveries -/

theorem mem_register_self (id : Nat) (r : Registry) : id ∈ register id r := by
  unfold register
  split
  · assumption
  · simp

theorem mem_unregister (id x : Nat) (r : Registry) :
    x ∈ unregister id r ↔ x ∈ r ∧ x ≠ id := by
  simp [unregister]

/-! ## The command to effect mapping -/

/-- Claim C1. A text frame that parses to a document whose `cmd` reads led (the
string led in particular) sets `led_state` to the requested value
`wantOn doc`, whatever the previous state (equal to it or not), and puts
exactly one frame on the wire: a `broadcastTXT` of the document with the two
members event = led and value = the requested value. It reaches every
registered session, the sender among them. -/
theorem led_command_sets_state_and_broadcasts (deserializeJson : Deserializer) (id : Nat)
    (payload : Payload) (doc : Json) (m : Machine)
    (hp : deserializeJson payload = .ok doc)
    (hc : ∃ s, getMember doc "cmd" = some (.str s) ∧ cstr s = "led") :
    (onWsEvent deserializeJson id .TEXT payload m).led_state = wantOn doc ∧
    outbound (emitted deserializeJson id .TEXT payload m) =
      [.broadcastTXT (.obj [("event", .str "led"), ("value", .bool (wantOn doc))])] ∧
    (∀ r : Registry,
      delivered (registryAt .TEXT id r) (emitted deserializeJson id .TEXT payload m) =
        r.map (fun x =>
          (x, Json.obj [("event", .str "led"), ("value", .bool (wantOn doc))]))) ∧
    (∀ r : Registry, id ∈ r →
      (id, Json.obj [("event", .str "led"), ("value", .bool (wantOn doc))]) ∈
        delivered (registryAt .TEXT id r) (emitted deserializeJson id .TEXT payload m)) := by
  have hc2 : orDefault (getMember doc "cmd") "" = "led" := (orDefault_eq_led _).2 hc
  have h : onWsEvent deserializeJson id .TEXT payload m =
      ⟨wantOn doc, m.trace ++
        [⟨.digitalWrite LED_PIN (if wantOn doc then .LOW else .HIGH), m.led_state⟩,
         ⟨.oledShowState (wantOn doc), wantOn doc⟩,
         ⟨.broadcastTXT (.obj [("event", .str "led"), ("value", .bool (wantOn doc))]),
           wantOn doc⟩]⟩ := by
    simp [onWsEvent, hp, hc2, applyLed, oledShowState, broadcastJson, emit, ledDoc]
  have he := emitted_of_trace deserializeJson id .TEXT payload m _ (congrArg Machine.trace h)
  have hd : ∀ r : Registry,
      delivered (registryAt .TEXT id r) (emitted deserializeJson id .TEXT payload m) =
        r.map (fun x =>
          (x, Json.obj [("event", .str "led"), ("value", .bool (wantOn doc))])) := by
    intro r
    rw [he]
    simp [delivered, deliver, registryAt]
  refine ⟨by rw [h], ?_, hd, ?_⟩
  · rw [he]
    simp [outbound, isOutbound]
  · intro r hr
    rw [hd r]
    exact List.mem_map.2 ⟨id, hr, rfl⟩

/-- Claim C2, as the code has it. For a parsed document whose `cmd` is the
string led, the value the handler applies is: `b` when `state` is the JSON
boolean `b`; for a string `state`, true exactly when its characters before the
first NUL are one of on, On, oN, ON, which for a string without NUL means the
string itself is one of them; and false when `state` is neither a boolean nor a
string (a number, null, an array, an object, or absent). -/
theorem led_requested_value (deserializeJson : Deserializer) (id : Nat)
    (payload : Payload) (doc : Json) (m : Machine)
    (hp : deserializeJson payload = .ok doc)
    (hc : getMember doc "cmd" = some (.str "led")) :
    (∀ b, getMember doc "state" = some (.bool b) →
      (onWsEvent deserializeJson id .TEXT payload m).led_state = b) ∧
    (∀ st, getMember doc "state" = some (.str st) →
      ((onWsEvent deserializeJson id .TEXT payload m).led_state = true ↔
        cstr st ∈ ["on", "On", "oN", "ON"])) ∧
    (∀ st, getMember doc "state" = some (.str st) → nul ∉ st.data →
      ((onWsEvent deserializeJson id .TEXT payload m).led_state = true ↔
        st ∈ ["on", "On", "oN", "ON"])) ∧
    ((∀ b, getMember doc "state" ≠ some (.bool b)) →
      (∀ st, getMember doc "state" ≠ some (.str st)) →
      (onWsEvent deserializeJson id .TEXT payload m).led_state = false) := by
  have hc2 : orDefault (getMember doc "cmd") "" = "led" := by
    simp [orDefault, hc, cstr, nul]
  have h : (onWsEvent deserializeJson id .TEXT payload m).led_state = wantOn doc := by
    simp [onWsEvent, hp, hc2, applyLed, oledShowState, broadcastJson, emit]
  rw [h]
  refine ⟨?_, ?_, ?_, ?_⟩
  · intro b hb
    simp [wantOn, hb, isBool, asBool]
  · intro st hs
    have hw : wantOn doc = equalsIgnoreCase (cstr st) "on" := by
      simp [wantOn, hs, isBool, orDefault]
    rw [hw]
    exact equalsIgnoreCase_on (cstr st)
  · intro st hs hn
    have hw : wantOn doc = equalsIgnoreCase (cstr st) "on" := by
      simp [wantOn, hs, isBool, orDefault]
    rw [hw, cstr_of_no_nul st hn]
    exact equalsIgnoreCase_on st
  · intro hb hs
    have h1 : isBool (getMember doc "state") = false := by
      unfold isBool
      split
      · rename_i b hm; exact absurd hm (hb b)
      · rfl
    have h2 : orDefault (getMember doc "state") "off" = "off" := by
      unfold orDefault
      split
      · rename_i t hm; exact absurd hm (hs t)
      · rfl
    simp only [wantOn, h1, h2]
    rfl

/-- Claim C3, as the code has it. A text frame that parses to a document whose
`cmd` is the string echo leaves `led_state` unchanged and makes exactly one
call: a `sendTXT` addressed to the sender, of the document with the two members
event = echo and msg. The msg is the inbound `msg` string read up to its first
NUL, so the inbound string itself when it holds no NUL, and the empty string
when `msg` is absent. No session other than the sender is delivered anything. -/
theorem echo_replies_to_sender_only (deserializeJson : Deserializer) (id : Nat)
    (payload : Payload) (doc : Json) (m : Machine)
    (hp : deserializeJson payload = .ok doc)
    (hc : getMember doc "cmd" = some (.str "echo")) :
    (onWsEvent deserializeJson id .TEXT payload m).led_state = m.led_state ∧
    (∀ s, getMember doc "msg" = some (.str s) →
      emitted deserializeJson id .TEXT payload m =
        [.sendTXT id (.obj [("event", .str "echo"), ("msg", .str (cstr s))])]) ∧
    (∀ s, getMember doc "msg" = some (.str s) → nul ∉ s.data →
      emitted deserializeJson id .TEXT payload m =
        [.sendTXT id (.obj [("event", .str "echo"), ("msg", .str s)])]) ∧
    (getMember doc "msg" = none →
      emitted deserializeJson id .TEXT payload m =
        [.sendTXT id (.obj [("event", .str "echo"), ("msg", .str "")])]) ∧
    (∃ msg : String, outbound (emitted deserializeJson id .TEXT payload m) =
      [.sendTXT id (.obj [("event", .str "echo"), ("msg", .str msg)])]) ∧
    (∀ (r : Registry) (x : Nat) (d : Json),
      (x, d) ∈ delivered (registryAt .TEXT id r) (emitted deserializeJson id .TEXT payload m) →
        x = id) ∧
    (∀ r : Registry, id ∈ r →
      (delivered (registryAt .TEXT id r)
        (emitted deserializeJson id .TEXT payload m)).length = 1) := by
  have hc2 : orDefault (getMember doc "cmd") "" = "echo" := by
    simp [orDefault, hc, cstr, nul]
  have hc3 : ¬ ("echo" = "led") := by decide
  have h : onWsEvent deserializeJson id .TEXT payload m =
      ⟨m.led_state, m.trace ++
        [⟨.sendTXT id (.obj [("event", .str "echo"),
            ("msg", .str (orDefault (getMember doc "msg") ""))]), m.led_state⟩]⟩ := by
    simp [onWsEvent, hp, hc2, hc3, sendJsonTo, emit, echoDoc]
  have he := emitted_of_trace deserializeJson id .TEXT payload m _ (congrArg Machine.trace h)
  simp only [List.map_cons, List.map_nil] at he
  refine ⟨by rw [h], ?_, ?_, ?_, ⟨orDefault (getMember doc "msg") "", ?_⟩, ?_, ?_⟩
  · intro s hs
    rw [he]; simp [hs, orDefault]
  · intro s hs hn
    rw [he]; simp [hs, orDefault, cstr_of_no_nul s hn]
  · intro hn
    rw [he]; simp [hn, orDefault]
  · rw [he]; simp [outbound, isOutbound]
  · intro r x d hx
    rw [he] at hx
    simp only [delivered, deliver, registryAt, List.append_nil] at hx
    split at hx
    · simp at hx; exact hx.1
    · simp at hx
  · intro r hr
    rw [he]
    simp [delivered, deliver, registryAt, hr]

/-- Claim C4. The connect event of session `S` leaves `led_state` unchanged and
puts exactly three frames on the wire, in this order: `sendTXT` to `S` of the
document event = hello, who = S, msg = welcome; `sendTXT` to `S` of the document
event = led, value = the current `led_state`; then a `broadcastTXT` of the
document event = presence, type = join, who = S, which reaches every registered
session, `S` included. -/
theorem connect_sends_hello_snapshot_join (deserializeJson : Deserializer) (S : Nat)
    (payload : Payload) (m : Machine) :
    (onWsEvent deserializeJson S .CONNECTED payload m).led_state = m.led_state ∧
    outbound (emitted deserializeJson S .CONNECTED payload m) =
      [.sendTXT S (.obj [("event", .str "hello"), ("who", .int S), ("msg", .str "welcome")]),
       .sendTXT S (.obj [("event", .str "led"), ("value", .bool m.led_state)]),
       .broadcastTXT (.obj [("event", .str "presence"), ("type", .str "join"),
         ("who", .int S)])] ∧
    (∀ r : Registry,
      delivered (registryAt .CONNECTED S r) (emitted deserializeJson S .CONNECTED payload m) =
        [(S, Json.obj [("event", .str "hello"), ("who", .int S), ("msg", .str "welcome")]),
         (S, Json.obj [("event", .str "led"), ("value", .bool m.led_state)])] ++
          (register S r).map (fun x =>
            (x, Json.obj [("event", .str "presence"), ("type", .str "join"),
              ("who", .int S)]))) ∧
    (∀ r : Registry, S ∈ register S r) ∧
    (∀ (r : Registry) (x : Nat), x ∈ r → x ∈ register S r) := by
  have h : onWsEvent deserializeJson S .CONNECTED payload m =
      ⟨m.led_state, m.trace ++
        [⟨.serialPrintf "Client %u connected: %s\n" S, m.led_state⟩,
         ⟨.sendTXT S (.obj [("event", .str "hello"), ("who", .int S),
            ("msg", .str "welcome")]), m.led_state⟩,
         ⟨.sendTXT S (.obj [("event", .str "led"), ("value", .bool m.led_state)]),
            m.led_state⟩,
         ⟨.broadcastTXT (.obj [("event", .str "presence"), ("type", .str "join"),
            ("who", .int S)]), m.led_state⟩]⟩ := by
    simp [onWsEvent, sendJsonTo, broadcastJson, emit, helloDoc, ledDoc, presenceDoc]
  have he := emitted_of_trace deserializeJson S .CONNECTED payload m _ (congrArg Machine.trace h)
  refine ⟨by rw [h], ?_, ?_, fun r => mem_register_self S r, ?_⟩
  · rw [he]; simp [outbound, isOutbound]
  · intro r
    rw [he]
    simp [delivered, deliver, registryAt, mem_register_self]
  · intro r x hx
    unfold register
    split
    · exact hx
    · exact List.mem_append_left _ hx

/-- Claim C5. The disconnect event of session `S` leaves `led_state` unchanged
and puts exactly one frame on the wire: a `broadcastTXT` of the document
event = presence, type = leave, who = S. It is delivered to the remaining
sessions: every registered session other than `S` receives it, and `S` receives
nothing. -/
theorem disconnect_broadcasts_leave_to_remaining (deserializeJson : Deserializer) (S : Nat)
    (payload : Payload) (m : Machine) :
    (onWsEvent deserializeJson S .DISCONNECTED payload m).led_state = m.led_state ∧
    outbound (emitted deserializeJson S .DISCONNECTED payload m) =
      [.broadcastTXT (.obj [("event", .str "presence"), ("type", .str "leave"),
        ("who", .int S)])] ∧
    (∀ r : Registry,
      delivered (registryAt .DISCONNECTED S r)
          (emitted deserializeJson S .DISCONNECTED payload m) =
        (unregister S r).map (fun x =>
          (x, Json.obj [("event", .str "presence"), ("type", .str "leave"),
            ("who", .int S)]))) ∧
    (∀ (r : Registry) (x : Nat), x ∈ r → x ≠ S →
      (x, Json.obj [("event", .str "presence"), ("type", .str "leave"), ("who", .int S)]) ∈
        delivered (registryAt .DISCONNECTED S r)
          (emitted deserializeJson S .DISCONNECTED payload m)) ∧
    (∀ (r : Registry) (d : Json),
      (S, d) ∉ delivered (registryAt .DISCONNECTED S r)
          (emitted deserializeJson S .DISCONNECTED payload m)) := by
  have h : onWsEvent deserializeJson S .DISCONNECTED payload m =
      ⟨m.led_state, m.trace ++
        [⟨.serialPrintf "Client %u disconnected\n" S, m.led_state⟩,
         ⟨.broadcastTXT (.obj [("event", .str "presence"), ("type", .str "leave"),
            ("who", .int S)]), m.led_state⟩]⟩ := by
    simp [onWsEvent, broadcastJson, emit, presenceDoc]
  have he := emitted_of_trace deserializeJson S .DISCONNECTED payload m _
    (congrArg Machine.trace h)
  have hd : ∀ r : Registry,
      delivered (registryAt .DISCONNECTED S r)
          (emitted deserializeJson S .DISCONNECTED payload m) =
        (unregister S r).map (fun x =>
          (x, Json.obj [("event", .str "presence"), ("type", .str "leave"),
            ("who", .int S)])) := by
    intro r
    rw [he]
    simp [delivered, deliver, registryAt]
  refine ⟨by rw [h], ?_, hd, ?_, ?_⟩
  · rw [he]; simp [outbound, isOutbound]
  · intro r x hx hne
    rw [hd r]
    exact List.mem_map.2 ⟨x, (mem_unregister S x r).2 ⟨hx, hne⟩, rfl⟩
  · intro r d hmem
    rw [hd r] at hmem
    obtain ⟨x, hx, hxe⟩ := List.mem_map.1 hmem
    have hxS : x = S := congrArg Prod.fst hxe
    exact ((mem_unregister S x r).1 hx).2 hxS

/-- Claim C6. A text frame on which `deserializeJson` reports an error makes the
handler return at once: the machine is unchanged (`led_state` and trace), so no
`sendTXT`, no `broadcastTXT`, no pin write and no display update happen. -/
theorem undecodable_frame_is_dropped (deserializeJson : Deserializer) (id : Nat)
    (payload : Payload) (err : DeserializationError) (m : Machine)
    (hp : deserializeJson payload = .error err) :
    onWsEvent deserializeJson id .TEXT payload m = m ∧
    emitted deserializeJson id .TEXT payload m = [] ∧
    outbound (emitted deserializeJson id .TEXT payload m) = [] ∧
    (emitted deserializeJson id .TEXT payload m).filter isHardware = [] := by
  have h := onWsEvent_error deserializeJson id payload err m hp
  have he : emitted deserializeJson id .TEXT payload m = [] := by
    simp [emitted, h]
  refine ⟨h, he, ?_, ?_⟩ <;> rw [he] <;> rfl

/-- Claim C7, as the code has it. A parsed text frame whose `cmd` is absent, is
not a string, or is a string whose characters before the first NUL are neither
led nor echo (compared exactly, so LED is unknown; for a string without NUL
these are all its characters) leaves the machine unchanged: nothing is emitted
and `led_state` keeps its value. -/
theorem unknown_command_is_dropped (deserializeJson : Deserializer) (id : Nat)
    (payload : Payload) (doc : Json) (m : Machine)
    (hp : deserializeJson payload = .ok doc)
    (hc : getMember doc "cmd" = none ∨
      (∃ j, getMember doc "cmd" = some j ∧ ∀ s, j ≠ .str s) ∨
      (∃ s, getMember doc "cmd" = some (.str s) ∧ cstr s ≠ "led" ∧ cstr s ≠ "echo") ∨
      (∃ s, getMember doc "cmd" = some (.str s) ∧ nul ∉ s.data ∧ s ≠ "led" ∧ s ≠ "echo")) :
    onWsEvent deserializeJson id .TEXT payload m = m ∧
    (onWsEvent deserializeJson id .TEXT payload m).led_state = m.led_state ∧
    emitted deserializeJson id .TEXT payload m = [] ∧
    outbound (emitted deserializeJson id .TEXT payload m) = [] := by
  have hne : ∀ t : String, (t = "led" ∨ t = "echo") →
      ¬ ∃ s, getMember doc "cmd" = some (.str s) ∧ cstr s = t := by
    rintro t ht ⟨u, hu, hut⟩
    rcases hc with h0 | ⟨j, hj, hns⟩ | ⟨s, hs, h1, h2⟩ | ⟨s, hs, hn, h1, h2⟩
    · rw [h0] at hu; cases hu
    · rw [hj] at hu
      injection hu with hu
      exact hns u hu
    · rw [hs] at hu
      injection hu with hu
      injection hu with hu
      subst hu
      rcases ht with rfl | rfl
      · exact h1 hut
      · exact h2 hut
    · rw [hs] at hu
      injection hu with hu
      injection hu with hu
      subst hu
      rw [cstr_of_no_nul s hn] at hut
      rcases ht with rfl | rfl
      · exact h1 hut
      · exact h2 hut
  have h1 : orDefault (getMember doc "cmd") "" ≠ "led" :=
    fun e => hne "led" (Or.inl rfl) ((orDefault_eq_led _).1 e)
  have h2 : orDefault (getMember doc "cmd") "" ≠ "echo" :=
    fun e => hne "echo" (Or.inr rfl) ((orDefault_eq_echo _).1 e)
  have h : onWsEvent deserializeJson id .TEXT payload m = m := by
    simp [onWsEvent, hp, h1, h2]
  have he : emitted deserializeJson id .TEXT payload m = [] := by
    simp [emitted, h]
  refine ⟨h, by rw [h], he, ?_⟩
  rw [he]; rfl

/-! ## Sequences of events -/

theorem writes_append (xs ys : List Emission) : writes (xs ++ ys) = writes xs + writes ys := by
  simp [writes, List.filter_append]

theorem run_cons (deserializeJson : Deserializer) (m : Machine) (ev : WsEvent)
    (evs : List WsEvent) :
    run deserializeJson m (ev :: evs) = run deserializeJson (step deserializeJson m ev) evs := rfl

/-- An event that carries a led command: the state becomes the requested value
after one pin write, one display refresh and one broadcast. -/
theorem step_of_request (deserializeJson : Deserializer) (m : Machine) (ev : WsEvent)
    (v : Bool) (h : ledRequest deserializeJson ev = some v) :
    step deserializeJson m ev =
      ⟨v, m.trace ++
        [⟨.digitalWrite LED_PIN (if v then .LOW else .HIGH), m.led_state⟩,
         ⟨.oledShowState v, v⟩,
         ⟨.broadcastTXT (.obj [("event", .str "led"), ("value", .bool v)]), v⟩]⟩ := by
  obtain ⟨id, type, payload⟩ := ev
  simp only [ledRequest] at h
  split at h
  · split at h
    · rename_i doc hp
      split at h
      · rename_i s hc
        split at h
        · rename_i hs
          injection h with h
          subst h
          exact onWsEvent_led deserializeJson id payload doc m hp
            ((orDefault_eq_led _).2 ⟨s, hc, hs⟩)
        · cases h
      · cases h
    · cases h
  · cases h

/-- An event that carries no led command: the state is kept, no pin write is
made, and a led event possibly sent (the snapshot of a connect) carries the
state. -/
theorem step_of_no_request (deserializeJson : Deserializer) (m : Machine) (ev : WsEvent)
    (h : ledRequest deserializeJson ev = none) :
    ∃ xs : List Emission,
      step deserializeJson m ev = ⟨m.led_state, m.trace ++ xs⟩ ∧ writes xs = 0 ∧
      ∀ e ∈ xs, ∀ x, carriesLed x e → x = m.led_state ∧ x = e.ledAt := by
  obtain ⟨id, type, payload⟩ := ev
  by_cases h1 : type = .CONNECTED
  · subst h1
    refine ⟨_, onWsEvent_connected deserializeJson id payload m, rfl, ?_⟩
    intro e he x hx
    simp only [List.mem_cons, List.mem_singleton, List.not_mem_nil, or_false] at he
    rcases he with rfl | rfl | rfl | rfl <;>
      simp [carriesLed, ledDoc] at hx ⊢
    exact hx.symm
  by_cases h3 : type = .DISCONNECTED
  · subst h3
    refine ⟨_, onWsEvent_disconnected deserializeJson id payload m, rfl, ?_⟩
    intro e he x hx
    simp only [List.mem_cons, List.mem_singleton, List.not_mem_nil, or_false] at he
    rcases he with rfl | rfl <;> simp [carriesLed, ledDoc] at hx
  by_cases h2 : type = .TEXT
  · subst h2
    cases hp : deserializeJson payload with
    | error err =>
      exact ⟨[], by simp [step, onWsEvent_error deserializeJson id payload err m hp], rfl,
        by simp⟩
    | ok doc =>
      have hl : orDefault (getMember doc "cmd") "" ≠ "led" := by
        intro hc
        obtain ⟨s, hs, hcs⟩ := (orDefault_eq_led _).1 hc
        simp [ledRequest, hp, hs, hcs] at h
      by_cases hc : orDefault (getMember doc "cmd") "" = "echo"
      · refine ⟨_, onWsEvent_echo deserializeJson id payload doc m hp hc, rfl, ?_⟩
        intro e he x hx
        simp only [List.mem_singleton] at he
        subst he
        simp [carriesLed, ledDoc] at hx
      · exact ⟨[], by simp [step, onWsEvent_unknown deserializeJson id payload doc m hp hl hc],
          rfl, by simp⟩
  · exact ⟨[], by simp [step, onWsEvent_other deserializeJson id type payload m h1 h2 h3], rfl,
      by simp⟩

/-- Every handler invocation extends the trace, and a led event among the new
entries carries both the state at its emission and the state the invocation
ends in. -/
theorem step_led_events (deserializeJson : Deserializer) (m : Machine) (ev : WsEvent) :
    ∃ xs : List Emission,
      (step deserializeJson m ev).trace = m.trace ++ xs ∧
      ∀ e ∈ xs, ∀ x, carriesLed x e →
        x = e.ledAt ∧ x = (step deserializeJson m ev).led_state := by
  cases h : ledRequest deserializeJson ev with
  | none =>
    obtain ⟨xs, hs, _, hx⟩ := step_of_no_request deserializeJson m ev h
    refine ⟨xs, by rw [hs], ?_⟩
    intro e he x hc
    rw [hs]
    exact ⟨(hx e he x hc).2, (hx e he x hc).1⟩
  | some v =>
    have hs := step_of_request deserializeJson m ev v h
    refine ⟨_, by rw [hs], ?_⟩
    intro e he x hc
    rw [hs]
    simp only [List.mem_cons, List.mem_singleton, List.not_mem_nil, or_false] at he
    rcases he with rfl | rfl | rfl <;> simp [carriesLed, ledDoc] at hc ⊢
    exact hc.symm

theorem run_led_events (deserializeJson : Deserializer) (evs : List WsEvent) :
    ∀ m : Machine, (∀ e ∈ m.trace, ∀ x, carriesLed x e → x = e.ledAt) →
      ∀ e ∈ (run deserializeJson m evs).trace, ∀ x, carriesLed x e → x = e.ledAt := by
  induction evs with
  | nil => intro m hm; exact hm
  | cons ev evs ih =>
    intro m hm
    rw [run_cons]
    apply ih
    obtain ⟨xs, hs, hx⟩ := step_led_events deserializeJson m ev
    intro e he x hc
    rw [hs, List.mem_append] at he
    rcases he with he | he
    · exact hm e he x hc
    · exact (hx e he x hc).1

theorem run_writes (deserializeJson : Deserializer) (evs : List WsEvent) :
    ∀ m : Machine, writes (run deserializeJson m evs).trace =
      writes m.trace + (evs.filterMap (ledRequest deserializeJson)).length := by
  induction evs with
  | nil => intro m; rfl
  | cons ev evs ih =>
    intro m
    rw [run_cons, ih]
    cases h : ledRequest deserializeJson ev with
    | none =>
      obtain ⟨xs, hs, hw, _⟩ := step_of_no_request deserializeJson m ev h
      rw [List.filterMap_cons_none h, hs]
      simp [writes_append, hw]
    | some v =>
      rw [List.filterMap_cons_some h, step_of_request deserializeJson m ev v h]
      simp [writes_append, writes]
      omega

/-- A led request is a text frame that parses to a document the handler
dispatches to the led branch, and its value is the `wantOn` of that document. -/
theorem ledRequest_some (deserializeJson : Deserializer) (ev : WsEvent) (v : Bool)
    (h : ledRequest deserializeJson ev = some v) :
    ev.type = .TEXT ∧ ∃ doc, deserializeJson ev.payload = .ok doc ∧
      orDefault (getMember doc "cmd") "" = "led" ∧ wantOn doc = v := by
  simp only [ledRequest] at h
  split at h
  · rename_i ht
    refine ⟨ht, ?_⟩
    split at h
    · rename_i doc hp
      split at h
      · rename_i s hc
        split at h
        · rename_i hs
          injection h with h
          exact ⟨doc, hp, (orDefault_eq_led _).2 ⟨s, hc, hs⟩, h⟩
        · cases h
      · cases h
    · cases h
  · cases h

/-- Claim C8, as the code has it. The handler keeps no counter. Every led
command, whether or not the requested value differs from the current one, makes
exactly one actuator write, followed at once by one display refresh and one
broadcast of the led event, so the number of actuator writes made so far grows
by exactly 1. Every other event leaves that number unchanged; no event makes it
smaller, and over a run from boot it equals the number of led commands
processed. -/
theorem led_command_counts_one_write (deserializeJson : Deserializer) :
    (∀ (m : Machine) (ev : WsEvent) (v : Bool), ledRequest deserializeJson ev = some v →
      (step deserializeJson m ev).led_state = v ∧
      ((step deserializeJson m ev).trace.drop m.trace.length).map Emission.effect =
        [.digitalWrite LED_PIN (if v then .LOW else .HIGH), .oledShowState v,
         .broadcastTXT (.obj [("event", .str "led"), ("value", .bool v)])] ∧
      writes (step deserializeJson m ev).trace = writes m.trace + 1) ∧
    (∀ (m : Machine) (ev : WsEvent), ledRequest deserializeJson ev = none →
      writes (step deserializeJson m ev).trace = writes m.trace) ∧
    (∀ (m : Machine) (ev : WsEvent),
      writes m.trace ≤ writes (step deserializeJson m ev).trace) ∧
    (∀ evs : List WsEvent, writes (run deserializeJson boot evs).trace =
      (evs.filterMap (ledRequest deserializeJson)).length) := by
  have hstep : ∀ (m : Machine) (ev : WsEvent) (v : Bool),
      ledRequest deserializeJson ev = some v →
      step deserializeJson m ev =
        ⟨v, m.trace ++
          [⟨.digitalWrite LED_PIN (if v then .LOW else .HIGH), m.led_state⟩,
           ⟨.oledShowState v, v⟩,
           ⟨.broadcastTXT (.obj [("event", .str "led"), ("value", .bool v)]), v⟩]⟩ := by
    intro m ev v h
    obtain ⟨ht, doc, hp, hc, hv⟩ := ledRequest_some deserializeJson ev v h
    obtain ⟨id, type, payload⟩ := ev
    simp only at ht hp
    subst ht
    subst hv
    simp [step, onWsEvent, hp, hc, applyLed, oledShowState, broadcastJson, emit, ledDoc]
  have hsome : ∀ (m : Machine) (ev : WsEvent) (v : Bool),
      ledRequest deserializeJson ev = some v →
      writes (step deserializeJson m ev).trace = writes m.trace + 1 := by
    intro m ev v h
    rw [hstep m ev v h]
    simp [writes_append, writes]
  have hnone : ∀ (m : Machine) (ev : WsEvent), ledRequest deserializeJson ev = none →
      writes (step deserializeJson m ev).trace = writes m.trace := by
    intro m ev h
    obtain ⟨xs, hs, hw, _⟩ := step_of_no_request deserializeJson m ev h
    rw [hs]
    simp [writes_append, hw]
  refine ⟨?_, hnone, ?_, ?_⟩
  · intro m ev v h
    refine ⟨?_, ?_, hsome m ev v h⟩
    · rw [hstep m ev v h]
    · rw [hstep m ev v h]
      simp [drop_own_length_append]
  · intro m ev
    cases h : ledRequest deserializeJson ev with
    | none => rw [hnone m ev h]
    | some v => rw [hsome m ev v h]; omega
  · intro evs
    rw [run_writes deserializeJson evs boot]
    simp [boot, writes]

/-- Claim C9. In the trace of any finite sequence of events processed from boot,
every outbound led event, the snapshot sent on connect as well as the broadcast
after a led command, carries the value `led_state` had when it was emitted; and
for every prefix and next event, the led events emitted for that event carry the
`led_state` the handler invocation ends in. -/
theorem led_events_carry_current_state (deserializeJson : Deserializer)
    (evs : List WsEvent) :
    (∀ e ∈ (run deserializeJson boot evs).trace, ∀ x, carriesLed x e → x = e.ledAt) ∧
    (∀ (ev : WsEvent),
      ∀ e ∈ (step deserializeJson (run deserializeJson boot evs) ev).trace.drop
          (run deserializeJson boot evs).trace.length,
        ∀ x, carriesLed x e →
          x = (step deserializeJson (run deserializeJson boot evs) ev).led_state) := by
  constructor
  · apply run_led_events deserializeJson evs boot
    intro e he
    simp [boot] at he
  · intro ev e he x hc
    obtain ⟨xs, hs, hx⟩ := step_led_events deserializeJson (run deserializeJson boot evs) ev
    rw [hs, drop_own_length_append] at he
    exact (hx e he x hc).2

/-- Claim C8, as stated, fails: no function of the stored actuator state can be
a counter that every led command increases by 1. The frame
`{"cmd":"led","state":false}` processed with `led_state = false` leaves the
stored state as it was. -/
theorem no_version_counter :
    ¬ ∃ version : Bool → Nat,
      ∀ (deserializeJson : Deserializer) (m : Machine) (ev : WsEvent) (v : Bool),
        ledRequest deserializeJson ev = some v →
          version (step deserializeJson m ev).led_state = version m.led_state + 1 := by
  rintro ⟨version, h⟩
  have h1 := h sampleDeserialize boot ⟨1, .TEXT, ledFalseFrame⟩ false rfl
  have h2 : (step sampleDeserialize boot ⟨1, .TEXT, ledFalseFrame⟩).led_state = false := rfl
  rw [h2] at h1
  simp [boot] at h1

/-- Claim C2, as stated, fails: the frame `{"cmd":"led","state":"on\u0000x"}`
carries a `state` string that is none of on, On, oN, ON, yet the handler reads
it as on and turns the LED on. -/
theorem led_requested_value_counterexample :
    sampleDeserialize nulStateFrame = .ok nulStateDoc ∧
    getMember nulStateDoc "cmd" = some (.str "led") ∧
    getMember nulStateDoc "state" = some (.str onNulX) ∧
    onNulX ∉ ["on", "On", "oN", "ON"] ∧
    (onWsEvent sampleDeserialize 1 .TEXT nulStateFrame boot).led_state = true :=
  ⟨rfl, rfl, rfl, by decide, rfl⟩

/-- Claim C3, as stated, fails: the frame `{"cmd":"echo","msg":"a\u0000b"}` is
answered with the msg a, which is not the inbound msg string. -/
theorem echo_replies_to_sender_only_counterexample :
    sampleDeserialize nulMsgFrame = .ok nulMsgDoc ∧
    getMember nulMsgDoc "cmd" = some (.str "echo") ∧
    getMember nulMsgDoc "msg" = some (.str aNulB) ∧
    emitted sampleDeserialize 2 .TEXT nulMsgFrame boot =
      [.sendTXT 2 (.obj [("event", .str "echo"), ("msg", .str "a")])] ∧
    "a" ≠ aNulB :=
  ⟨rfl, rfl, rfl, rfl, by decide⟩

/-- Claim C7, as stated, fails: the frame `{"cmd":"led\u0000x"}` carries a `cmd`
string other than led and echo, yet the handler runs the led branch: with the
LED on it switches it off and broadcasts the led event. -/
theorem unknown_command_is_dropped_counterexample :
    sampleDeserialize nulCmdFrame = .ok nulCmdDoc ∧
    getMember nulCmdDoc "cmd" = some (.str ledNulX) ∧
    ledNulX ≠ "led" ∧ ledNulX ≠ "echo" ∧
    (onWsEvent sampleDeserialize 1 .TEXT nulCmdFrame ⟨true, []⟩).led_state = false ∧
    outbound (emitted sampleDeserialize 1 .TEXT nulCmdFrame ⟨true, []⟩) =
      [.broadcastTXT (.obj [("event", .str "led"), ("value", .bool false)])] :=
  ⟨rfl, rfl, by decide, by decide, rfl, rfl⟩

/-! ## Concrete runs -/

/-- The led on frame sent by session 3 while the LED is already on: the state
stays on and the led event is still broadcast, once, to sessions 1, 3 and 7. -/
theorem led_command_sets_state_and_broadcasts_witness :
    sampleDeserialize ledOnFrame = .ok ledOnDoc ∧
    getMember ledOnDoc "cmd" = some (.str "led") ∧
    emitted sampleDeserialize 3 .TEXT ledOnFrame ⟨true, []⟩ =
      [.digitalWrite 2 .LOW, .oledShowState true,
       .broadcastTXT (.obj [("event", .str "led"), ("value", .bool true)])] ∧
    (onWsEvent sampleDeserialize 3 .TEXT ledOnFrame ⟨true, []⟩).led_state = true ∧
    outbound (emitted sampleDeserialize 3 .TEXT ledOnFrame ⟨true, []⟩) =
      [.broadcastTXT (.obj [("event", .str "led"), ("value", .bool true)])] ∧
    delivered (registryAt .TEXT 3 [1, 3, 7])
        (emitted sampleDeserialize 3 .TEXT ledOnFrame ⟨true, []⟩) =
      [(1, .obj [("event", .str "led"), ("value", .bool true)]),
       (3, .obj [("event", .str "led"), ("value", .bool true)]),
       (7, .obj [("event", .str "led"), ("value", .bool true)])] :=
  have h := led_command_sets_state_and_broadcasts sampleDeserialize 3 ledOnFrame ledOnDoc
    ⟨true, []⟩ rfl ⟨"led", rfl, rfl⟩
  ⟨rfl, rfl, rfl, h.1, h.2.1, h.2.2.1 [1, 3, 7]⟩

/-- The requested values of the sample frames: the string on gives true, the
boolean false gives false. -/
theorem led_requested_value_witness :
    getMember ledOnDoc "state" = some (.str "on") ∧
    wantOn ledOnDoc = true ∧
    getMember ledFalseDoc "state" = some (.bool false) ∧
    wantOn ledFalseDoc = false ∧
    (onWsEvent sampleDeserialize 1 .TEXT ledOnFrame boot).led_state = true ∧
    (onWsEvent sampleDeserialize 1 .TEXT ledFalseFrame ⟨true, []⟩).led_state = false :=
  ⟨rfl, rfl, rfl, rfl,
   ((led_requested_value sampleDeserialize 1 ledOnFrame ledOnDoc boot rfl rfl).2.2.1
      "on" rfl (by decide)).2 (by decide),
   (led_requested_value sampleDeserialize 1 ledFalseFrame ledFalseDoc ⟨true, []⟩
      rfl rfl).1 false rfl⟩

/-- The echo frame with msg hi sent by session 2 is answered to session 2 only. -/
theorem echo_replies_to_sender_only_witness :
    sampleDeserialize echoHiFrame = .ok echoHiDoc ∧
    getMember echoHiDoc "msg" = some (.str "hi") ∧
    onWsEvent sampleDeserialize 2 .TEXT echoHiFrame boot =
      ⟨false, [⟨.sendTXT 2 (.obj [("event", .str "echo"), ("msg", .str "hi")]), false⟩]⟩ ∧
    (onWsEvent sampleDeserialize 2 .TEXT echoHiFrame boot).led_state = false ∧
    emitted sampleDeserialize 2 .TEXT echoHiFrame boot =
      [.sendTXT 2 (.obj [("event", .str "echo"), ("msg", .str "hi")])] ∧
    (delivered (registryAt .TEXT 2 [1, 2])
      (emitted sampleDeserialize 2 .TEXT echoHiFrame boot)).length = 1 :=
  have h := echo_replies_to_sender_only sampleDeserialize 2 echoHiFrame echoHiDoc boot rfl rfl
  ⟨rfl, rfl, rfl, h.1, h.2.2.1 "hi" rfl (by decide), h.2.2.2.2.2.2 [1, 2] (by decide)⟩

/-- Session 3 connecting while the LED is on and sessions 1 and 2 are present. -/
theorem connect_sends_hello_snapshot_join_witness :
    onWsEvent sampleDeserialize 3 .CONNECTED "" ⟨true, []⟩ =
      ⟨true,
       [⟨.serialPrintf "Client %u connected: %s\n" 3, true⟩,
        ⟨.sendTXT 3 (.obj [("event", .str "hello"), ("who", .int 3),
          ("msg", .str "welcome")]), true⟩,
        ⟨.sendTXT 3 (.obj [("event", .str "led"), ("value", .bool true)]), true⟩,
        ⟨.broadcastTXT (.obj [("event", .str "presence"), ("type", .str "join"),
          ("who", .int 3)]), true⟩]⟩ ∧
    registryAt .CONNECTED 3 [1, 2] = [1, 2, 3] ∧
    outbound (emitted sampleDeserialize 3 .CONNECTED "" ⟨true, []⟩) =
      [.sendTXT 3 (.obj [("event", .str "hello"), ("who", .int 3), ("msg", .str "welcome")]),
       .sendTXT 3 (.obj [("event", .str "led"), ("value", .bool true)]),
       .broadcastTXT (.obj [("event", .str "presence"), ("type", .str "join"),
         ("who", .int 3)])] ∧
    delivered (registryAt .CONNECTED 3 [1, 2])
        (emitted sampleDeserialize 3 .CONNECTED "" ⟨true, []⟩) =
      [(3, .obj [("event", .str "hello"), ("who", .int 3), ("msg", .str "welcome")]),
       (3, .obj [("event", .str "led"), ("value", .bool true)]),
       (1, .obj [("event", .str "presence"), ("type", .str "join"), ("who", .int 3)]),
       (2, .obj [("event", .str "presence"), ("type", .str "join"), ("who", .int 3)]),
       (3, .obj [("event", .str "presence"), ("type", .str "join"), ("who", .int 3)])] :=
  have h := connect_sends_hello_snapshot_join sampleDeserialize 3 "" ⟨true, []⟩
  ⟨rfl, rfl, h.2.1, h.2.2.1 [1, 2]⟩

/-- Session 3 disconnecting while sessions 1 and 2 remain. -/
theorem disconnect_broadcasts_leave_to_remaining_witness :
    onWsEvent sampleDeserialize 3 .DISCONNECTED "" ⟨true, []⟩ =
      ⟨true,
       [⟨.serialPrintf "Client %u disconnected\n" 3, true⟩,
        ⟨.broadcastTXT (.obj [("event", .str "presence"), ("type", .str "leave"),
          ("who", .int 3)]), true⟩]⟩ ∧
    registryAt .DISCONNECTED 3 [1, 2, 3] = [1, 2] ∧
    outbound (emitted sampleDeserialize 3 .DISCONNECTED "" ⟨true, []⟩) =
      [.broadcastTXT (.obj [("event", .str "presence"), ("type", .str "leave"),
        ("who", .int 3)])] ∧
    delivered (registryAt .DISCONNECTED 3 [1, 2, 3])
        (emitted sampleDeserialize 3 .DISCONNECTED "" ⟨true, []⟩) =
      [(1, .obj [("event", .str "presence"), ("type", .str "leave"), ("who", .int 3)]),
       (2, .obj [("event", .str "presence"), ("type", .str "leave"), ("who", .int 3)])] :=
  have h := disconnect_broadcasts_leave_to_remaining sampleDeserialize 3 "" ⟨true, []⟩
  ⟨rfl, rfl, h.2.1, h.2.2.1 [1, 2, 3]⟩

/-- The text `not-json` is rejected by the parser and changes nothing. -/
theorem undecodable_frame_is_dropped_witness :
    sampleDeserialize "not-json" = .error .InvalidInput ∧
    onWsEvent sampleDeserialize 1 .TEXT "not-json" ⟨true, []⟩ = ⟨true, []⟩ ∧
    emitted sampleDeserialize 1 .TEXT "not-json" ⟨true, []⟩ = [] :=
  have h := undecodable_frame_is_dropped sampleDeserialize 1 "not-json" .InvalidInput
    ⟨true, []⟩ rfl
  ⟨rfl, h.1, h.2.1⟩

/-- The command LED in upper case is unknown and changes nothing. -/
theorem unknown_command_is_dropped_witness :
    sampleDeserialize upperLedFrame = .ok upperLedDoc ∧
    getMember upperLedDoc "cmd" = some (.str "LED") ∧
    onWsEvent sampleDeserialize 1 .TEXT upperLedFrame boot = boot ∧
    emitted sampleDeserialize 1 .TEXT upperLedFrame boot = [] :=
  have h := unknown_command_is_dropped sampleDeserialize 1 upperLedFrame upperLedDoc boot rfl
    (Or.inr (Or.inr (Or.inr ⟨"LED", rfl, by decide, by decide, by decide⟩)))
  ⟨rfl, rfl, h.1, h.2.2.1⟩

/-- A led on command while the LED is already on still makes one actuator
write, one display refresh and one broadcast. -/
theorem led_command_counts_one_write_witness :
    ledRequest sampleDeserialize ⟨1, .TEXT, ledOnFrame⟩ = some true ∧
    step sampleDeserialize ⟨true, []⟩ ⟨1, .TEXT, ledOnFrame⟩ =
      ⟨true,
       [⟨.digitalWrite 2 .LOW, true⟩, ⟨.oledShowState true, true⟩,
        ⟨.broadcastTXT (.obj [("event", .str "led"), ("value", .bool true)]), true⟩]⟩ ∧
    (step sampleDeserialize ⟨true, []⟩ ⟨1, .TEXT, ledOnFrame⟩).led_state = true ∧
    ((step sampleDeserialize ⟨true, []⟩ ⟨1, .TEXT, ledOnFrame⟩).trace.drop 0).map
        Emission.effect =
      [.digitalWrite LED_PIN .LOW, .oledShowState true,
       .broadcastTXT (.obj [("event", .str "led"), ("value", .bool true)])] ∧
    writes (step sampleDeserialize ⟨true, []⟩ ⟨1, .TEXT, ledOnFrame⟩).trace = 0 + 1 :=
  ⟨rfl, rfl, (led_command_counts_one_write sampleDeserialize).1 ⟨true, []⟩
    ⟨1, .TEXT, ledOnFrame⟩ true rfl⟩

/-- In the sample run the led broadcast is in the trace and carries the state
at its emission. -/
theorem led_events_carry_current_state_witness :
    (⟨.broadcastTXT (ledDoc true), true⟩ : Emission) ∈
      (run sampleDeserialize boot sampleEvents).trace ∧
    carriesLed true ⟨.broadcastTXT (ledDoc true), true⟩ ∧
    true = (⟨.broadcastTXT (ledDoc true), true⟩ : Emission).ledAt :=
  have hmem : (⟨.broadcastTXT (ledDoc true), true⟩ : Emission) ∈
      (run sampleDeserialize boot sampleEvents).trace := by
    have ht : (run sampleDeserialize boot sampleEvents).trace =
        [⟨.serialPrintf "Client %u connected: %s\n" 1, false⟩,
         ⟨.sendTXT 1 (helloDoc 1), false⟩,
         ⟨.sendTXT 1 (ledDoc false), false⟩,
         ⟨.broadcastTXT (presenceDoc "join" 1), false⟩,
         ⟨.digitalWrite LED_PIN .LOW, false⟩,
         ⟨.oledShowState true, true⟩,
         ⟨.broadcastTXT (ledDoc true), true⟩] := rfl
    rw [ht]
    simp
  ⟨hmem, Or.inl rfl,
    (led_events_carry_current_state sampleDeserialize sampleEvents).1 _ hmem true (Or.inl rfl)⟩

end Esp8266Ws
